/-
  Verification of the boleto / CNAB core of the FIDC middleware.

  Shallow embedding of the Python sources (utils.py, validation.py,
  services.py, app.py, models.py) into Lean 4.  Pure functions are
  translated as Lean functions; Python's `datetime.now()` is passed in
  explicitly as a date parameter; database rows become structures;
  functions that can raise become Option-valued.  IEEE `float` values
  produced by `float(decimal-string)` are modelled as the exact decimal
  rationals (the IEEE rounding error, below 2^-40 relative, is
  irrelevant to every property stated here, all of which distinguish
  values at the scale of whole cents).
-/
import Mathlib

namespace Julius

/-! ## Python string primitives -/

/-- Python `str.zfill(n)` at the character-list level: pad with
    leading `'0'` up to total width `n`; a leading sign stays in front
    of the inserted zeros.  (When `n ≤ length` the pad is empty and the
    list is returned unchanged, as in Python.) -/
def zfillList (l : List Char) (n : Nat) : List Char :=
  match l with
  | '-' :: rest => '-' :: (List.replicate (n - l.length) '0' ++ rest)
  | '+' :: rest => '+' :: (List.replicate (n - l.length) '0' ++ rest)
  | _ => List.replicate (n - l.length) '0' ++ l

/-- Python `str.zfill(n)`. -/
def zfill (s : String) (n : Nat) : String := String.mk (zfillList s.data n)

/-- Python `str.ljust(n, fill)` (no-op when `n ≤ length`). -/
def ljust (s : String) (n : Nat) (fill : Char) : String :=
  String.mk (s.data ++ List.replicate (n - s.data.length) fill)

/-- Python `str.rjust(n, fill)` (no-op when `n ≤ length`). -/
def rjust (s : String) (n : Nat) (fill : Char) : String :=
  String.mk (List.replicate (n - s.data.length) fill ++ s.data)

/-- Python slice `s[:n]`. -/
def strTake (s : String) (n : Nat) : String := String.mk (s.data.take n)

/-- Python slice `s[n:]`. -/
def strDrop (s : String) (n : Nat) : String := String.mk (s.data.drop n)

/-- Python slice `s[a:b]`. -/
def strSlice (s : String) (a b : Nat) : String := String.mk ((s.data.take b).drop a)

/-- Python `''.join(filter(str.isdigit, s))`. -/
def stripNonDigits (s : String) : String := String.mk (s.data.filter Char.isDigit)

/-- Python `s.split(sep)` for a one-character separator, at the
    character-list level (`"a-b" -> ["a","b"]`, `"" -> [""]`). -/
def splitOnChar (sep : Char) : List Char → List (List Char)
  | [] => [[]]
  | c :: rest =>
      let r := splitOnChar sep rest
      if c = sep then [] :: r
      else
        match r with
        | h :: t => (c :: h) :: t
        | [] => [[c]]

/-- Python `s.split(sep)` on strings, one-character separator. -/
def strSplit (s : String) (sep : Char) : List String :=
  (splitOnChar sep s.data).map String.mk

/-- Numeric value of a decimal digit character (callers only apply this
    to digits, where Python's `int(c)` succeeds). -/
def charVal (c : Char) : Nat := c.toNat - '0'.toNat

/-- Python `int(s)` on a non-empty string of decimal digits. -/
def strToNat (s : String) : Nat := s.data.foldl (fun acc c => acc * 10 + charVal c) 0

/-- Python `int(q * scale)` for a natural scale factor, computed
    exactly: truncation toward zero of the scaled rational. -/
def pyIntScaled (q : ℚ) (scale : Nat) : ℤ := Int.tdiv (q.num * scale) q.den

/-! ## utils.py — `calcular_dv_bmp` (the spec's `bank_b_nn_dv`) -/

/-- The weight/sum loop of `calcular_dv_bmp`: walk the reversed digit
    list with weight starting at 2, incrementing and wrapping back to 2
    after 7 (`peso += 1; if peso > 7: peso = 2`). -/
def somaLoop : List Char → Nat → Nat → Nat
  | [], _, acc => acc
  | c :: rest, peso, acc =>
      somaLoop rest (if peso + 1 > 7 then 2 else peso + 1) (acc + charVal c * peso)

/-- `utils.calcular_dv_bmp(carteira, nosso_numero_sem_dv)`:
    zero-pad the nosso número to 11, concatenate after the wallet,
    apply the weight loop right-to-left, and map the remainder mod 11
    through the BMP rules (0 ↦ "0", 1 ↦ "P", r ↦ 11 − r). -/
def calcular_dv_bmp (carteira : String) (nosso_numero_sem_dv : Nat) : String :=
  let nn_str := zfill (toString nosso_numero_sem_dv) 11
  let base_calculo := carteira ++ nn_str
  let soma := somaLoop base_calculo.data.reverse 2 0
  let resto := soma % 11
  if resto = 0 then "0"
  else if resto = 1 then "P"
  else toString (11 - resto)

/-! ## services.py — `BoletoBuilder.mod11` / `mod10` -/

/-- The weight/sum loop of `BoletoBuilder.mod11` (weights cycle 2..base
    right-to-left). -/
def mod11Loop (base : Nat) : List Char → Nat → Nat → Nat
  | [], _, acc => acc
  | c :: rest, weight, acc =>
      mod11Loop base rest (if weight + 1 > base then 2 else weight + 1)
        (acc + charVal c * weight)

/-- `BoletoBuilder.mod11(number, base, r)`. -/
def mod11 (number : String) (base : Nat) (r : Nat) : Nat :=
  let sum_val := mod11Loop base number.data.reverse 2 0
  let remainder := sum_val % 11
  let result := 11 - remainder
  if result ≥ 10 then r else result

/-- The weight/sum loop of `BoletoBuilder.mod10` (weights alternate
    2,1,2,1…, products above 9 collapse by digit sum). -/
def mod10Loop : List Char → Nat → Nat → Nat
  | [], _, acc => acc
  | c :: rest, weight, acc =>
      let val := charVal c * weight
      let val := if val > 9 then val / 10 + val % 10 else val
      mod10Loop rest (if weight = 2 then 1 else 2) (acc + val)

/-- `BoletoBuilder.mod10(number)`. -/
def mod10 (number : String) : Nat :=
  let sum_val := mod10Loop number.data.reverse 2 0
  let remainder := sum_val % 10
  if remainder = 0 then 0 else 10 - remainder

/-! ## Calendar dates (Python `datetime.date` arithmetic) -/

/-- A calendar date, as carried by Python `datetime.date`. -/
structure Date where
  year : Nat
  month : Nat
  day : Nat
deriving DecidableEq, Repr

/-- Rata-die day number of a Gregorian date (days-from-civil algorithm);
    differences of this function equal Python's `(d2 - d1).days`. -/
def rataDie (dt : Date) : ℤ :=
  let y := if dt.month ≤ 2 then dt.year - 1 else dt.year
  let era := y / 400
  let yoe := y % 400
  let mp := if dt.month > 2 then dt.month - 3 else dt.month + 9
  let doy := (153 * mp + 2) / 5 + dt.day - 1
  let doe := yoe * 365 + yoe / 4 - yoe / 100 + doy
  (era * 146097 + doe : ℤ) - 719468

/-- Python `(a - b).days` for two dates. -/
def dateDiffDays (a b : Date) : ℤ := rataDie a - rataDie b

/-- Python `date.strftime('%d%m%Y')`. -/
def strftimeDDMMYYYY (dt : Date) : String :=
  zfill (toString dt.day) 2 ++ zfill (toString dt.month) 2 ++ zfill (toString dt.year) 4

/-- Python `date.strftime('%d%m%y')`. -/
def strftimeDDMMYY (dt : Date) : String :=
  zfill (toString dt.day) 2 ++ zfill (toString dt.month) 2 ++
    zfill (toString (dt.year % 100)) 2

/-- Day count of a Gregorian month, for `strptime` range checking. -/
def daysInMonth (y m : Nat) : Nat :=
  if m = 2 then (if y % 4 = 0 ∧ (y % 100 ≠ 0 ∨ y % 400 = 0) then 29 else 28)
  else if m = 4 ∨ m = 6 ∨ m = 9 ∨ m = 11 then 30 else 31

/-- Python `datetime.strptime(s, '%Y-%m-%d').date()`: `none` models the
    `ValueError` raised on a string that does not match the format. -/
def strptimeYMD (s : String) : Option Date :=
  match strSplit s '-' with
  | [ys, ms, ds] =>
      if ys ≠ "" ∧ ms ≠ "" ∧ ds ≠ "" ∧
         ys.data.all Char.isDigit ∧ ms.data.all Char.isDigit ∧ ds.data.all Char.isDigit then
        let y := strToNat ys
        let m := strToNat ms
        let d := strToNat ds
        if 1 ≤ m ∧ m ≤ 12 ∧ 1 ≤ d ∧ d ≤ daysInMonth y m then some ⟨y, m, d⟩ else none
      else none
  | _ => none

/-! ## services.py — `BoletoBuilder.calculate_barcode` -/

/-- `BoletoBuilder.calculate_santander_nosso_numero(nosso_numero, carteira)`. -/
def calculate_santander_nosso_numero (nosso_numero : Nat) (_carteira : String) : String :=
  let nn_str := zfill (toString nosso_numero) 12
  let dv := mod11 nn_str 9 0
  nn_str ++ "-" ++ toString dv

/-- `BoletoBuilder.calculate_barcode(...)`, returning
    `(barcode, digitable_line)`.  The free field is built exactly as in
    the source: `'9' + carteira.zfill(3) + str(nosso_numero).zfill(12)[:12]`
    (16 characters). -/
def calculate_barcode (bank_code currency_code : String) (due_date : Date)
    (amount : ℚ) (nosso_numero : String) (_agency _account : String)
    (carteira : String) : String × String :=
  let base_date : Date := ⟨1997, 10, 7⟩
  let days_diff := dateDiffDays due_date base_date
  let fator_vencimento := zfill (toString days_diff) 4
  let amount_str := zfill (toString (pyIntScaled amount 100)) 10
  let free_field := "9" ++ zfill carteira 3 ++ strTake (zfill nosso_numero 12) 12
  let barcode_no_dv := bank_code ++ currency_code ++ fator_vencimento ++ amount_str ++ free_field
  let dv_barcode := mod11 barcode_no_dv 9 1
  let barcode := bank_code ++ currency_code ++ toString dv_barcode ++
    fator_vencimento ++ amount_str ++ free_field
  let field1_data := bank_code ++ currency_code ++ strTake free_field 5
  let dv1 := mod10 field1_data
  let field1 := field1_data ++ toString dv1
  let field2_data := strSlice free_field 5 15
  let dv2 := mod10 field2_data
  let field2 := field2_data ++ toString dv2
  let field3_data := strSlice free_field 15 25
  let dv3 := mod10 field3_data
  let field3 := field3_data ++ toString dv3
  let field4 := toString dv_barcode
  let field5 := fator_vencimento ++ amount_str
  let digitable_line :=
    strTake field1 5 ++ "." ++ strDrop field1 5 ++ " " ++
    strTake field2 5 ++ "." ++ strDrop field2 5 ++ " " ++
    strTake field3 5 ++ "." ++ strDrop field3 5 ++ " " ++
    field4 ++ " " ++ field5
  (barcode, digitable_line)

/-! ## services.py — `CnabService` formatting primitives -/

/-- `n` spaces. -/
def spaces (n : Nat) : String := String.mk (List.replicate n ' ')

/-- `n` zero characters. -/
def zeros (n : Nat) : String := String.mk (List.replicate n '0')

/-- `CnabService.format_text(text, length)` (default fill `' '`, left
    aligned): truncate to `length`, then space-pad on the right. -/
def format_text (text : String) (length : Nat) : String :=
  ljust (strTake text length) length ' '

/-- `CnabService.format_num(num, length)` with `decimals = 0` on an
    integer argument: `str(int(num)).zfill(length)`. -/
def format_num_int (num : ℤ) (length : Nat) : String :=
  zfill (toString num) length

/-- `CnabService.format_num(num, length)` with `decimals = 0` on a
    string argument: Python's `int(num) if num else 0`, then zfill
    (callers pass digit strings). -/
def format_num_str (num : String) (length : Nat) : String :=
  zfill (toString (if num.isEmpty then 0 else strToNat num)) length

/-- `CnabService.format_num(num, length, decimals)` with `decimals > 0`:
    `int(float(num) * 10 ** decimals)` (truncation toward zero), then
    zfill. -/
def format_num_dec (num : ℚ) (length : Nat) (decimals : Nat) : String :=
  zfill (toString (pyIntScaled num (10 ^ decimals))) length

/-- Python `a or b` for strings (empty string is falsy). -/
def pyOr (a b : String) : String := if a ≠ "" then a else b

/-- `account.split('-')[0] if '-' in account else account`. -/
def accountBody (account : String) : String :=
  if account.data.contains '-' then (strSplit account '-').headD "" else account

/-- `account.split('-')[1][0] if '-' in account else '0'`. -/
def accountDac (account : String) : String :=
  if account.data.contains '-' then
    strTake (((strSplit account '-').get? 1).getD "") 1
  else "0"

/-! ## Entity rows (models.py), restricted to the fields the emitter and
    the boleto generator read. `""` models SQL `NULL` / Python `None`
    in optional string columns (both are falsy). -/

structure BankConfig where
  bank_type : String
  agency : String
  account : String
  wallet : String
  codigo_transmissao : String
  juros_percent : ℚ
  protesto_dias : Nat
  baixa_dias : Nat
deriving DecidableEq, Repr

structure UserRec where
  username : String
  razao_social : String
  cnpj : String
  bank_configs : List BankConfig
deriving DecidableEq, Repr

structure InvoiceRec where
  sacado_address : String
  sacado_neighborhood : String
  sacado_city : String
  sacado_state : String
  sacado_zip : String
  especie : String
deriving DecidableEq, Repr

structure BoletoRec where
  id : Nat
  nosso_numero : String
  amount : ℚ
  due_date : Date
  sacado_name : String
  sacado_doc : String
  invoices : List InvoiceRec
  cedente : UserRec
deriving DecidableEq, Repr

/-! ## services.py — `CnabService.generate_santander_240` -/

/-- The transmission code of the file/batch headers: the explicit
    config value when present, else agency + `' '` + account body +
    account DAC. -/
def codigoTransmissao (cfg : BankConfig) : String :=
  if cfg.codigo_transmissao ≠ "" then
    format_num_str cfg.codigo_transmissao 15
  else
    format_num_str cfg.agency 4 ++ " " ++
    format_num_str (accountBody cfg.account) 9 ++ accountDac cfg.account

/-- Segment P of `generate_santander_240` for one boleto (the record
    built in the `for boleto in boletos` loop, first half). -/
def segmentP (today : Date) (seq : Nat) (b : BoletoRec) (cfg : BankConfig) : String :=
  "033" ++ "0001" ++ "3" ++ format_num_int seq 5 ++ "P" ++ " " ++ "01" ++
  format_num_str cfg.agency 4 ++ "0" ++
  format_num_str (accountBody cfg.account) 9 ++ accountDac cfg.account ++
  zeros 9 ++ "0" ++ "  " ++
  format_num_str b.nosso_numero 13 ++
  "5" ++ "1" ++ "1" ++ " " ++ " " ++
  format_text (toString b.id) 15 ++
  strftimeDDMMYYYY b.due_date ++
  format_num_dec b.amount 15 2 ++
  "0000" ++ "0" ++ " " ++ "04" ++ "N" ++
  strftimeDDMMYYYY today ++
  "0" ++ zeros 8 ++
  (if cfg.juros_percent ≠ 0 then
    "1" ++ zeros 8 ++ format_num_dec ((b.amount * (cfg.juros_percent / 100)) / 30) 15 2
   else
    "0" ++ zeros 8 ++ zeros 15) ++
  "0" ++ zeros 8 ++ zeros 15 ++ zeros 15 ++ zeros 15 ++
  format_text (toString b.id) 25 ++
  (if cfg.protesto_dias ≠ 0 then "1" ++ format_num_int cfg.protesto_dias 2
   else "3" ++ "00") ++
  (if cfg.baixa_dias ≠ 0 then "1" ++ "0" ++ format_num_int cfg.baixa_dias 2
   else "1" ++ "0" ++ "90") ++
  "09" ++ spaces 11

/-- Segment Q of `generate_santander_240` for one boleto.  `none`
    models the `AttributeError` the source raises on
    `inv.sacado_zip` when the boleto has no linked invoice (that read
    is not guarded by `if inv`). -/
def segmentQ (seq : Nat) (b : BoletoRec) : Option String :=
  let doc_clean := stripNonDigits b.sacado_doc
  let tipo_insc := if doc_clean.length > 11 then "2" else "1"
  match b.invoices.head? with
  | none => none
  | some inv =>
      let end_cep := stripNonDigits inv.sacado_zip
      some (
        "033" ++ "0001" ++ "3" ++ format_num_int seq 5 ++ "Q" ++ " " ++ "01" ++
        tipo_insc ++ format_num_str doc_clean 15 ++
        format_text b.sacado_name 40 ++
        format_text inv.sacado_address 40 ++
        format_text inv.sacado_neighborhood 15 ++
        format_num_str (strTake end_cep 5) 5 ++
        format_num_str (strDrop end_cep 5) 3 ++
        format_text inv.sacado_city 15 ++
        format_text inv.sacado_state 2 ++
        "0" ++ zeros 15 ++ spaces 40 ++
        spaces 3 ++ spaces 3 ++ spaces 3 ++ spaces 3 ++ spaces 19)

/-- The `(Segment P, Segment Q)` pairs of the detail loop, with the
    per-boleto config lookup (`boleto.cedente.bank_configs`, falling
    back to the cedente-level Santander config). -/
def segmentPairs (today : Date) (fallback : BankConfig) :
    List BoletoRec → Nat → Option (List String)
  | [], _ => some []
  | b :: rest, seq =>
      let cfg := ((b.cedente.bank_configs.find? (fun bc => bc.bank_type = "santander")).getD fallback)
      match segmentQ (seq + 1) b with
      | none => none
      | some q =>
          match segmentPairs today fallback rest (seq + 2) with
          | none => none
          | some tail => some (segmentP today seq b cfg :: q :: tail)

/-- The `lines` list of `CnabService.generate_santander_240` just
    before CRLF joining; `none` models the raised errors (missing
    Santander config, or the Segment-Q invoice access). -/
def generate_santander_240_lines (boletos : List BoletoRec) (cedente : UserRec)
    (today : Date) : Option (List String) :=
  match cedente.bank_configs.find? (fun bc => bc.bank_type = "santander") with
  | none => none
  | some santander_config =>
      let cedente_cnpj := stripNonDigits cedente.cnpj
      let ct := codigoTransmissao santander_config
      let h_arq :=
        "033" ++ "0000" ++ "0" ++ spaces 8 ++ "2" ++
        format_num_str cedente_cnpj 15 ++ ct ++ spaces 25 ++
        format_text (pyOr cedente.razao_social cedente.username) 30 ++
        format_text "BANCO SANTANDER" 30 ++ spaces 10 ++ "1" ++
        strftimeDDMMYYYY today ++ spaces 6 ++ format_num_int 1 6 ++ "040" ++ spaces 74
      let h_lote :=
        "033" ++ "0001" ++ "1" ++ "R" ++ "01" ++ "  " ++ "030" ++ " " ++ "2" ++
        format_num_str cedente_cnpj 15 ++ spaces 20 ++ ct ++ spaces 5 ++
        format_text (pyOr cedente.razao_social cedente.username) 30 ++
        spaces 40 ++ spaces 40 ++ format_num_int 1 8 ++
        strftimeDDMMYYYY today ++ spaces 41
      match segmentPairs today santander_config boletos 1 with
      | none => none
      | some segs =>
          let seqFinal := 1 + 2 * boletos.length
          let t_lote :=
            "033" ++ "0001" ++ "5" ++ spaces 9 ++
            format_num_int (seqFinal + 1) 6 ++ spaces 217
          let body := h_arq :: h_lote :: (segs ++ [t_lote])
          let t_arq :=
            "033" ++ "9999" ++ "9" ++ spaces 9 ++ format_num_int 1 6 ++
            format_num_int (body.length + 1) 6 ++ spaces 211
          some (body ++ [t_arq])

/-- `CnabService.generate_santander_240` proper: the lines joined with
    CRLF. -/
def generate_santander_240 (boletos : List BoletoRec) (cedente : UserRec)
    (today : Date) : Option String :=
  (generate_santander_240_lines boletos cedente today).map
    (fun lines => String.intercalate "\r\n" lines)

/-! ## app.py — nosso-número allocation inside `generate_boleto`
    (lines 414–422): validate `current > max` (break with the
    EXHAUSTED-style error) else hand out `current` and increment. -/

structure Counter where
  current_nosso_numero : ℤ
  max_nosso_numero : ℤ
deriving DecidableEq, Repr

/-- One allocation step: `none` in the first component models the
    "Nosso Numero limit reached" failure path, which leaves the counter
    untouched. -/
def allocate (c : Counter) : Option ℤ × Counter :=
  if c.current_nosso_numero > c.max_nosso_numero then (none, c)
  else (some c.current_nosso_numero,
        ⟨c.current_nosso_numero + 1, c.max_nosso_numero⟩)

/-! ## validation.py — CPF/CNPJ formatters -/

/-- The body of `validation.format_cpf` after the digit strip:
    return the digits unchanged unless there are exactly 11, else
    `f"{c[:3]}.{c[3:6]}.{c[6:9]}-{c[9:]}"`. -/
def format_cpf_digits (c : List Char) : String :=
  if c.length ≠ 11 then String.mk c
  else String.mk (c.take 3 ++ '.' :: ((c.take 6).drop 3) ++ '.' :: ((c.take 9).drop 6) ++
    '-' :: c.drop 9)

/-- `validation.format_cpf`. -/
def format_cpf (cpf : String) : String :=
  format_cpf_digits (stripNonDigits cpf).data

/-- The body of `validation.format_cnpj` after the digit strip:
    return the digits unchanged unless there are exactly 14, else
    `f"{c[:2]}.{c[2:5]}.{c[5:8]}/{c[8:12]}-{c[12:]}"`. -/
def format_cnpj_digits (c : List Char) : String :=
  if c.length ≠ 14 then String.mk c
  else String.mk (c.take 2 ++ '.' :: ((c.take 5).drop 2) ++ '.' :: ((c.take 8).drop 5) ++
    '/' :: ((c.take 12).drop 8) ++ '-' :: c.drop 12)

/-- `validation.format_cnpj`. -/
def format_cnpj (cnpj : String) : String :=
  format_cnpj_digits (stripNonDigits cnpj).data

/-! ## services.py — the barcode-string preparation step of
    `BoletoBuilder.generate_pdf` (lines 894–901): strip non-digits,
    then right-pad with `'0'` to 44 when short. -/

def clean_barcode (barcode : String) : String :=
  let c := stripNonDigits barcode
  if c.length < 44 then ljust c 44 '0' else c

/-! ## Boleto status lifecycle (models.py / app.py) -/

/-- The status written by `generate_boleto` when a Boleto row is
    created (app.py line 471). -/
def generatedBoletoStatus : String := "printed"

/-- The column default of `Boleto.status` (models.py line 174). -/
def boletoStatusDefault : String := "pending"

/-- Approval (app.py lines 650–652): only `pending` or `printed`
    boletos are moved to `approved`; others are left alone. -/
def approveBoleto (s : String) : String :=
  if s = "pending" ∨ s = "printed" then "approved" else s

/-- Registration on CNAB emission (app.py lines 678/701 + 747–748):
    the emitted set is filtered to `status='approved'`, each of which
    becomes `registered`. -/
def registerBoleto (s : String) : String :=
  if s = "approved" then "registered" else s

/-- Cancellation (app.py lines 841–850): refused (`none`) on a
    `registered` boleto, otherwise the status becomes `cancelled`. -/
def cancelBoleto (s : String) : Option String :=
  if s = "registered" then none else some "cancelled"

/-- The status set named by the spec. -/
def specStatuses : List String := ["pending", "approved", "registered", "cancelled"]

/-- The status set the code actually uses (the spec's four plus
    `printed`). -/
def codeStatuses : List String :=
  ["pending", "printed", "approved", "registered", "cancelled"]

/-! ## Python `float(decimal-string)` and substring search -/

/-- Python `float(s)` restricted to plain decimal literals (optional
    sign, integer part, optional fraction part), the only shapes fiscal
    XML amount fields carry; `none` models the raised `ValueError`.
    The value is the exact decimal rational (see the file header note
    on IEEE rounding). -/
def parsePyFloat (s : String) : Option ℚ :=
  let (sign, body) : ℤ × List Char :=
    match s.data with
    | '-' :: r => (-1, r)
    | '+' :: r => (1, r)
    | l => (1, l)
  match strSplit (String.mk body) '.' with
  | [ip] =>
      if ip ≠ "" ∧ ip.data.all Char.isDigit then some (mkRat (sign * strToNat ip) 1) else none
  | [ip, fp] =>
      if (ip ≠ "" ∨ fp ≠ "") ∧ ip.data.all Char.isDigit ∧ fp.data.all Char.isDigit then
        some (mkRat (sign * (strToNat ip * 10 ^ fp.length + strToNat fp)) (10 ^ fp.length))
      else none
  | _ => none

/-- Python `needle in hay` substring test. -/
def containsSub (needle : List Char) : List Char → Bool
  | [] => needle.isEmpty
  | c :: rest => needle.isPrefixOf (c :: rest) || containsSub needle rest

/-- Python `str.lower()` (tags here are ASCII). -/
def pyLower (s : String) : String := String.mk (s.data.map Char.toLower)

/-! ## services.py — `XmlParser`

    XML trees are modelled with namespace-resolved tags: the source
    always queries `f'{{{ns}}}tag'` with the namespace read off the
    root, so tags appear here already stripped of `{ns}`. -/

mutual
inductive Xml where
  | elem (tag : String) (text : Option String) (children : XmlList)
deriving Repr
inductive XmlList where
  | nil
  | cons (head : Xml) (tail : XmlList)
deriving Repr
end

/-- Build an `XmlList` from a plain list (fixture convenience). -/
def xl (l : List Xml) : XmlList := l.foldr XmlList.cons .nil

def Xml.tag : Xml → String
  | .elem t _ _ => t

def Xml.text : Xml → Option String
  | .elem _ t _ => t

def Xml.children : Xml → XmlList
  | .elem _ _ c => c

def XmlList.isEmpty : XmlList → Bool
  | .nil => true
  | .cons _ _ => false

/-- First element of an `XmlList` satisfying the tag predicate. -/
def findInList (t : String) : XmlList → Option Xml
  | .nil => none
  | .cons c rest => if c.tag = t then some c else findInList t rest

/-- `node.find('{ns}tag')`: first direct child with the tag. -/
def findChild (x : Xml) (t : String) : Option Xml :=
  findInList t x.children

mutual
/-- Descendants-or-self of one node with the given tag, document
    order. -/
def descInNode (t : String) : Xml → List Xml
  | .elem ct cx cc => (if ct = t then [Xml.elem ct cx cc] else []) ++ descInList t cc
/-- All members-or-descendants of a node list with the given tag, in
    document order, as enumerated by `.//tag` below a root. -/
def descInList (t : String) : XmlList → List Xml
  | .nil => []
  | .cons c rest => descInNode t c ++ descInList t rest
end

/-- `tree.find('.//{ns}a')`. -/
def findDesc1 (x : Xml) (a : String) : Option Xml :=
  (descInList a x.children).head?

/-- `tree.find('.//{ns}a/{ns}b')`. -/
def findDesc2 (x : Xml) (a b : String) : Option Xml :=
  ((descInList a x.children).filterMap (fun n => findChild n b)).head?

/-- `tree.find('.//{ns}a/{ns}b/{ns}c')`. -/
def findDesc3 (x : Xml) (a b c : String) : Option Xml :=
  ((descInList a x.children).filterMap
    (fun n => (findChild n b).bind (fun m => findChild m c))).head?

/-- Python `f"{v}"` on an optional string (`None` prints as "None"). -/
def pyStr (o : Option String) : String := o.getD "None"

/-- `elem.text if elem is not None else default` as an optional
    string (the element's text itself may be `None`). -/
def textOr (x : Option Xml) (dflt : Option String) : Option String :=
  match x with
  | some e => e.text
  | none => dflt

/-- The record both parsers return (`sacado_*`, amount, issue date,
    document number).  Fields the source can leave as Python `None`
    are `Option String`. -/
structure ParsedDoc where
  sacado_name : Option String
  sacado_doc : Option String
  sacado_address : String
  sacado_neighborhood : Option String
  sacado_city : Option String
  sacado_state : Option String
  sacado_zip : Option String
  amount : ℚ
  issue_date : Date
  doc_number : Option String
deriving DecidableEq, Repr

/-- The amount extraction shared by both parsers:
    `float(node.text) if node is not None else 0.0`; `none` models the
    `TypeError`/`ValueError` raised on a missing or non-numeric text. -/
def amountOfNode (node : Option Xml) : Option ℚ :=
  match node with
  | none => some 0
  | some v =>
      match v.text with
      | none => none
      | some t => parsePyFloat t

/-- The NFe issue-date logic: prefer `dhEmi`, fall back to `dEmi`,
    split an ISO datetime at `'T'`, default to today on an empty
    string; `none` models the exceptions (`'T' in None`, `strptime`
    failure). -/
def nfeIssueDate (x : Xml) (today : Date) : Option Date :=
  let date_str := textOr (findDesc2 x "ide" "dhEmi")
    (textOr (findDesc2 x "ide" "dEmi") (some ""))
  match date_str with
  | none => none
  | some ds =>
      if ds.data.contains 'T' then strptimeYMD ((strSplit ds 'T').headD "")
      else if ds ≠ "" then strptimeYMD ds
      else some today

/-- The address block of `parse_nfe` (the `enderDest` lookup):
    `none` when the element is absent (the `address` dict stays
    empty and every `.get` falls back). -/
def nfeAddress (dest : Xml) :
    Option (String × Option String × Option String × Option String × Option String) :=
  match findChild dest "enderDest" with
  | none => none
  | some ender =>
      let street := textOr (findChild ender "xLgr") (some "")
      let number := textOr (findChild ender "nro") (some "")
      let nb := textOr (findChild ender "xBairro") (some "")
      let ct := textOr (findChild ender "xMun") (some "")
      let st := textOr (findChild ender "UF") (some "")
      let zp := textOr (findChild ender "CEP") (some "")
      some (pyStr street ++ ", " ++ pyStr number, nb, ct, st, zp)

/-- `XmlParser.parse_nfe`; `none` models any raised exception
    (missing `dest`, bad amount text, bad date). -/
def parse_nfe (x : Xml) (today : Date) : Option ParsedDoc :=
  match findDesc1 x "dest" with
  | none => none
  | some dest =>
      let name := textOr (findChild dest "xNome") (some "Unknown")
      let doc :=
        match findChild dest "CNPJ" with
        | some e => e.text
        | none => textOr (findChild dest "CPF") (some "")
      let addr := nfeAddress dest
      match amountOfNode (findDesc3 x "total" "ICMSTot" "vNF") with
      | none => none
      | some amount =>
          match nfeIssueDate x today with
          | none => none
          | some issue_date =>
              let number := textOr (findDesc2 x "ide" "nNF") (some "Unknown")
              some {
                sacado_name := name
                sacado_doc := doc
                sacado_address := (addr.map (·.1)).getD ""
                sacado_neighborhood := (addr.map (·.2.1)).getD (some "")
                sacado_city := (addr.map (·.2.2.1)).getD (some "")
                sacado_state := (addr.map (·.2.2.2.1)).getD (some "")
                sacado_zip := (addr.map (·.2.2.2.2)).getD (some "")
                amount := amount
                issue_date := issue_date
                doc_number := number }

/-- lxml truth testing of `a or b` on elements: an element with no
    children is falsy. -/
def orElem (a b : Option Xml) : Option Xml :=
  match a with
  | some x => if x.children.isEmpty then b else some x
  | none => b

/-- The `extract_address` helper inside `parse_cte`:
    `enderToma or enderDest or enderReme`, then the subfields; `none`
    when no element results. -/
def cteAddress (node : Xml) :
    Option (String × Option String × Option String × Option String × Option String) :=
  let ender := orElem (findChild node "enderToma")
    (orElem (findChild node "enderDest") (findChild node "enderReme"))
  match ender with
  | none => none
  | some e =>
      let street := textOr (findChild e "xLgr") (some "")
      let number := textOr (findChild e "nro") (some "")
      let nb := textOr (findChild e "xBairro") (some "")
      let ct := textOr (findChild e "xMun") (some "")
      let st := textOr (findChild e "UF") (some "")
      let zp := textOr (findChild e "CEP") (some "")
      some (pyStr street ++ ", " ++ pyStr number, nb, ct, st, zp)

/-- `role_map = {'0': 'rem', '1': 'exped', '2': 'receb', '3': 'dest'}`. -/
def cteRoleMap (code : String) : Option String :=
  if code = "0" then some "rem"
  else if code = "1" then some "exped"
  else if code = "2" then some "receb"
  else if code = "3" then some "dest"
  else none

/-- The payer resolution of `parse_cte`: name, document, and address
    block; `none` for the whole triple when no role path populated
    `payer_data`. -/
def ctePayer (x : Xml) :
    Option (Option String × Option String ×
      Option (String × Option String × Option String × Option String × Option String)) :=
  let viaToma3 :=
    match findDesc2 x "ide" "toma3" with
    | none => none
    | some toma3 =>
        match findChild toma3 "toma" with
        | none => none
        | some toma_role =>
            match toma_role.text with
            | none => none
            | some role_code =>
                match cteRoleMap role_code with
                | none => none
                | some role_tag =>
                    match findDesc1 x role_tag with
                    | none => none
                    | some role_node =>
                        let name := textOr (findChild role_node "xNome") (some "Unknown")
                        let doc :=
                          match findChild role_node "CNPJ" with
                          | some e => e.text
                          | none => textOr (findChild role_node "CPF") (some "")
                        some (name, doc, cteAddress role_node)
  match viaToma3 with
  | some r => some r
  | none =>
      match findDesc2 x "ide" "toma4" with
      | some toma4 =>
          let name := textOr (findChild toma4 "xNome") (some "Unknown")
          let doc :=
            match findChild toma4 "CNPJ" with
            | some e => e.text
            | none => textOr (findChild toma4 "CPF") (some "")
          some (name, doc, cteAddress toma4)
      | none =>
          match findDesc1 x "dest" with
          | some dest =>
              let name := textOr (findChild dest "xNome") (some "Unknown")
              let doc := textOr (findChild dest "CNPJ") (some "")
              some (name, doc, cteAddress dest)
          | none => none

/-- `XmlParser.parse_cte`; `none` models the raised exceptions (bad
    amount text, `'T' in None`, bad date). -/
def parse_cte (x : Xml) (today : Date) : Option ParsedDoc :=
  match amountOfNode (findDesc2 x "vPrest" "vTPrest") with
  | none => none
  | some amount =>
      let date_str := textOr (findDesc2 x "ide" "dhEmi") (some "")
      match date_str with
      | none => none
      | some ds =>
          let issue_date? :=
            if ds.data.contains 'T' then strptimeYMD ((strSplit ds 'T').headD "")
            else some today
          match issue_date? with
          | none => none
          | some issue_date =>
              let number := textOr (findDesc2 x "ide" "nCT") (some "Unknown")
              let payer := ctePayer x
              let name := (payer.map (·.1)).getD (some "Unknown")
              let doc := (payer.map (·.2.1)).getD (some "")
              let addr := (payer.bind (·.2.2))
              some {
                sacado_name := name
                sacado_doc := doc
                sacado_address := (addr.map (·.1)).getD ""
                sacado_neighborhood := (addr.map (·.2.1)).getD (some "")
                sacado_city := (addr.map (·.2.2.1)).getD (some "")
                sacado_state := (addr.map (·.2.2.2.1)).getD (some "")
                sacado_zip := (addr.map (·.2.2.2.2)).getD (some "")
                amount := amount
                issue_date := issue_date
                doc_number := number }

/-- `XmlParser.parse_file`: `none` in the argument models XML that
    `etree.parse` rejects; the result is `(kind, data)` on success and
    `none` on every failure (the source catches every exception and
    returns `(None, None)`, and returns `(None, None)` itself for an
    unrecognized root). -/
def parse_file (input : Option Xml) (today : Date) : Option (String × ParsedDoc) :=
  match input with
  | none => none
  | some root =>
      let tag_lower := pyLower root.tag
      if containsSub "nfe".data tag_lower.data then
        (parse_nfe root today).map (fun d => ("nfe", d))
      else if containsSub "cte".data tag_lower.data then
        (parse_cte root today).map (fun d => ("cte", d))
      else none

/-! ## Spec-side definition for the BANK_B DV refinement claim

    `Modelled from the spec:` the spec's wording of `bank_b_nn_dv` as a
    closed-form weighted sum — digit `i` from the right carries weight
    `2 + i mod 6` ("weights cycle 2..7 right-to-left") — to be compared
    with the loop the source runs. -/

/-- The weight list `2,3,4,5,6,7,2,3,…` of length `n`. -/
def bmpWeights (n : Nat) : List Nat := (List.range n).map (fun i => 2 + i % 6)

/-- The spec's weighted sum: reversed digits paired with the cycling
    weights. -/
def bmpSpecSum (l : List Char) : Nat :=
  (List.zipWith (fun c w => charVal c * w) l.reverse (bmpWeights l.length)).sum

/-- `bank_b_nn_dv` as the spec words it (same remainder rules, sum as
    the closed-form weighted sum). -/
def bank_b_nn_dv_spec (carteira : String) (nosso_numero : Nat) : String :=
  let base := carteira ++ zfill (toString nosso_numero) 11
  let resto := bmpSpecSum base.data % 11
  if resto = 0 then "0"
  else if resto = 1 then "P"
  else toString (11 - resto)

/-! ## Concrete fixtures -/

/-- A Santander bank configuration with every width-sensitive field of
    its nominal size. -/
def sampleSantanderConfig : BankConfig :=
  ⟨"santander", "3421", "13000456-7", "101", "123456789012345", 0, 0, 0⟩

/-- A cedente owning the Santander configuration. -/
def sampleCedente : UserRec := ⟨"acme", "ACME LTDA", "12345678000195", [sampleSantanderConfig]⟩

/-- A linked invoice carrying the payer address. -/
def sampleInvoice : InvoiceRec := ⟨"RUA X, 1", "CENTRO", "SAO PAULO", "SP", "01310100", "DM"⟩

/-- One boleto for the single-boleto BANK_A remittance scenario. -/
def sampleBoleto : BoletoRec :=
  ⟨1, "1", 1000, ⟨2024, 12, 31⟩, "FOO SA", "98765432000110", [sampleInvoice], sampleCedente⟩

/-- The NFe fixture of spec scenario 2: amount "1234.56",
    dhEmi "2024-01-15T10:00:00-03:00", nNF "789", destinatary CNPJ
    "12345678000195". -/
def nfeFixture : Xml :=
  .elem "NFe" none (xl [
    .elem "infNFe" none (xl [
      .elem "ide" none (xl [
        .elem "dhEmi" (some "2024-01-15T10:00:00-03:00") (xl []),
        .elem "nNF" (some "789") (xl [])]),
      .elem "dest" none (xl [
        .elem "xNome" (some "DEST LTDA") (xl []),
        .elem "CNPJ" (some "12345678000195") (xl [])]),
      .elem "total" none (xl [
        .elem "ICMSTot" none (xl [
          .elem "vNF" (some "1234.56") (xl [])])])])])

/-- An XML document whose root names neither NFe nor CTe. -/
def unknownRootDoc : Xml := .elem "invoice" none (xl [])

/-- An NFe document with no destinatary node (required field absent). -/
def nfeMissingDest : Xml := .elem "NFe" none (xl [.elem "infNFe" none (xl [])])

/-! ## Helper lemmas -/

theorem zfillList_length (l : List Char) (n : Nat) :
    (zfillList l n).length = max l.length n := by
  unfold zfillList
  split <;> simp <;> omega

theorem zfill_length (s : String) (n : Nat) :
    (zfill s n).length = max s.length n := by
  show (zfillList s.data n).length = max s.data.length n
  exact zfillList_length s.data n

/-- The weight loop of `calcular_dv_bmp` computes the closed-form
    weighted sum the spec describes (weight `2 + i % 6` on the `i`-th
    character of the traversed list). -/
theorem somaLoop_eq (l : List Char) : ∀ j acc : Nat,
    somaLoop l (2 + j % 6) acc =
      acc + (List.zipWith (fun c w => charVal c * w) l
        ((List.range l.length).map (fun i => 2 + (j + i) % 6))).sum := by
  induction l with
  | nil => intro j acc; simp [somaLoop]
  | cons c rest ih =>
      intro j acc
      have hw : (if 2 + j % 6 + 1 > 7 then 2 else 2 + j % 6 + 1) = 2 + (j + 1) % 6 := by
        split <;> omega
      have step : somaLoop (c :: rest) (2 + j % 6) acc =
          somaLoop rest (2 + (j + 1) % 6) (acc + charVal c * (2 + j % 6)) := by
        simp only [somaLoop]
        rw [hw]
      rw [step, ih (j + 1) (acc + charVal c * (2 + j % 6))]
      have hfun : ((fun i => 2 + (j + i) % 6) ∘ Nat.succ) = (fun i => 2 + (j + 1 + i) % 6) := by
        funext i
        simp only [Function.comp]
        omega
      conv_rhs => rw [List.length_cons, List.range_succ_eq_map, List.map_cons,
        List.map_map, hfun]
      simp only [List.zipWith_cons_cons, List.sum_cons, Nat.add_zero]
      ring

/-- Specialisation to the loop's actual initial weight 2. -/
theorem somaLoop_spec (l : List Char) :
    somaLoop l 2 0 =
      (List.zipWith (fun c w => charVal c * w) l (bmpWeights l.length)).sum := by
  have h := somaLoop_eq l 0 0
  simpa [bmpWeights] using h

/-- `calcular_dv_bmp` agrees with the spec's closed-form description. -/
theorem calcular_dv_bmp_refines (carteira : String) (nn : Nat) :
    calcular_dv_bmp carteira nn = bank_b_nn_dv_spec carteira nn := by
  simp only [calcular_dv_bmp, bank_b_nn_dv_spec, bmpSpecSum, somaLoop_spec,
    List.length_reverse]

theorem filter_digits_idem (l : List Char) :
    (l.filter Char.isDigit).filter Char.isDigit = l.filter Char.isDigit := by
  simp [List.filter_filter]

theorem stripNonDigits_idem (s : String) :
    stripNonDigits (stripNonDigits s) = stripNonDigits s := by
  show String.mk (((s.data.filter Char.isDigit)).filter Char.isDigit) = _
  rw [filter_digits_idem]
  rfl

theorem filter_eq_self_of_digits (l : List Char) (h : ∀ c ∈ l, Char.isDigit c) :
    l.filter Char.isDigit = l :=
  List.filter_eq_self.mpr (fun c hc => h c hc)

/-- Recomposition of the four CPF slices. -/
theorem take_drop_recompose_cpf (l : List Char) :
    l.take 3 ++ ((l.take 6).drop 3) ++ ((l.take 9).drop 6) ++ l.drop 9 = l := by
  have h3 : (l.take 6).take 3 = l.take 3 := by
    simp [List.take_take]
  have h6 : (l.take 9).take 6 = l.take 6 := by
    simp [List.take_take]
  calc l.take 3 ++ ((l.take 6).drop 3) ++ ((l.take 9).drop 6) ++ l.drop 9
      = ((l.take 6).take 3 ++ (l.take 6).drop 3) ++ ((l.take 9).drop 6) ++ l.drop 9 := by
        rw [h3]
    _ = l.take 6 ++ ((l.take 9).drop 6) ++ l.drop 9 := by
        rw [List.take_append_drop]
    _ = ((l.take 9).take 6 ++ (l.take 9).drop 6) ++ l.drop 9 := by rw [h6]
    _ = l.take 9 ++ l.drop 9 := by rw [List.take_append_drop]
    _ = l := List.take_append_drop 9 l

/-- Recomposition of the five CNPJ slices. -/
theorem take_drop_recompose_cnpj (l : List Char) :
    l.take 2 ++ ((l.take 5).drop 2) ++ ((l.take 8).drop 5) ++ ((l.take 12).drop 8) ++
      l.drop 12 = l := by
  have h2 : (l.take 5).take 2 = l.take 2 := by simp [List.take_take]
  have h5 : (l.take 8).take 5 = l.take 5 := by simp [List.take_take]
  have h8 : (l.take 12).take 8 = l.take 8 := by simp [List.take_take]
  calc l.take 2 ++ ((l.take 5).drop 2) ++ ((l.take 8).drop 5) ++ ((l.take 12).drop 8) ++ l.drop 12
      = ((l.take 5).take 2 ++ (l.take 5).drop 2) ++ ((l.take 8).drop 5) ++
          ((l.take 12).drop 8) ++ l.drop 12 := by rw [h2]
    _ = l.take 5 ++ ((l.take 8).drop 5) ++ ((l.take 12).drop 8) ++ l.drop 12 := by
        rw [List.take_append_drop]
    _ = ((l.take 8).take 5 ++ (l.take 8).drop 5) ++ ((l.take 12).drop 8) ++ l.drop 12 := by
        rw [h5]
    _ = l.take 8 ++ ((l.take 12).drop 8) ++ l.drop 12 := by rw [List.take_append_drop]
    _ = ((l.take 12).take 8 ++ (l.take 12).drop 8) ++ l.drop 12 := by rw [h8]
    _ = l.take 12 ++ l.drop 12 := by rw [List.take_append_drop]
    _ = l := List.take_append_drop 12 l

/-- Stripping the CPF formatter's output recovers the digit list it was
    applied to. -/
theorem strip_format_cpf_digits (c : List Char) (h : ∀ x ∈ c, Char.isDigit x) :
    (format_cpf_digits c).data.filter Char.isDigit = c := by
  unfold format_cpf_digits
  split
  · exact filter_eq_self_of_digits c h
  · show (c.take 3 ++ '.' :: ((c.take 6).drop 3) ++ '.' :: ((c.take 9).drop 6) ++
      '-' :: c.drop 9).filter Char.isDigit = c
    have hdot : ('.' : Char).isDigit = false := by decide
    have hdash : ('-' : Char).isDigit = false := by decide
    have h1 : (c.take 3).filter Char.isDigit = c.take 3 :=
      filter_eq_self_of_digits _ (fun x hx => h x (List.mem_of_mem_take hx))
    have h2 : ((c.take 6).drop 3).filter Char.isDigit = (c.take 6).drop 3 :=
      filter_eq_self_of_digits _
        (fun x hx => h x (List.mem_of_mem_take (List.mem_of_mem_drop hx)))
    have h3 : ((c.take 9).drop 6).filter Char.isDigit = (c.take 9).drop 6 :=
      filter_eq_self_of_digits _
        (fun x hx => h x (List.mem_of_mem_take (List.mem_of_mem_drop hx)))
    have h4 : (c.drop 9).filter Char.isDigit = c.drop 9 :=
      filter_eq_self_of_digits _ (fun x hx => h x (List.mem_of_mem_drop hx))
    simp [List.filter_append, hdot, hdash, h1, h2, h3, h4]
    simpa [List.append_assoc] using take_drop_recompose_cpf c

/-- Stripping the CNPJ formatter's output recovers the digit list it
    was applied to. -/
theorem strip_format_cnpj_digits (c : List Char) (h : ∀ x ∈ c, Char.isDigit x) :
    (format_cnpj_digits c).data.filter Char.isDigit = c := by
  unfold format_cnpj_digits
  split
  · exact filter_eq_self_of_digits c h
  · show (c.take 2 ++ '.' :: ((c.take 5).drop 2) ++ '.' :: ((c.take 8).drop 5) ++
      '/' :: ((c.take 12).drop 8) ++ '-' :: c.drop 12).filter Char.isDigit = c
    have hdot : ('.' : Char).isDigit = false := by decide
    have hslash : ('/' : Char).isDigit = false := by decide
    have hdash : ('-' : Char).isDigit = false := by decide
    have h1 : (c.take 2).filter Char.isDigit = c.take 2 :=
      filter_eq_self_of_digits _ (fun x hx => h x (List.mem_of_mem_take hx))
    have h2 : ((c.take 5).drop 2).filter Char.isDigit = (c.take 5).drop 2 :=
      filter_eq_self_of_digits _
        (fun x hx => h x (List.mem_of_mem_take (List.mem_of_mem_drop hx)))
    have h3 : ((c.take 8).drop 5).filter Char.isDigit = (c.take 8).drop 5 :=
      filter_eq_self_of_digits _
        (fun x hx => h x (List.mem_of_mem_take (List.mem_of_mem_drop hx)))
    have h4 : ((c.take 12).drop 8).filter Char.isDigit = (c.take 12).drop 8 :=
      filter_eq_self_of_digits _
        (fun x hx => h x (List.mem_of_mem_take (List.mem_of_mem_drop hx)))
    have h5 : (c.drop 12).filter Char.isDigit = c.drop 12 :=
      filter_eq_self_of_digits _ (fun x hx => h x (List.mem_of_mem_drop hx))
    simp [List.filter_append, hdot, hslash, hdash, h1, h2, h3, h4, h5]
    simpa [List.append_assoc] using take_drop_recompose_cnpj c

theorem strip_data_digits (s : String) : ∀ x ∈ (stripNonDigits s).data, Char.isDigit x := by
  intro x hx
  exact (List.mem_filter.mp hx).2

theorem mk_data_eq (t : String) : String.mk t.data = t := rfl

/-- Stripping the output of `format_cpf` yields the same digits as
    stripping its input. -/
theorem strip_format_cpf (s : String) :
    stripNonDigits (format_cpf s) = stripNonDigits s := by
  show String.mk ((format_cpf_digits (stripNonDigits s).data).data.filter Char.isDigit) =
    stripNonDigits s
  rw [strip_format_cpf_digits _ (strip_data_digits s)]

/-- Stripping the output of `format_cnpj` yields the same digits as
    stripping its input. -/
theorem strip_format_cnpj (s : String) :
    stripNonDigits (format_cnpj s) = stripNonDigits s := by
  show String.mk ((format_cnpj_digits (stripNonDigits s).data).data.filter Char.isDigit) =
    stripNonDigits s
  rw [strip_format_cnpj_digits _ (strip_data_digits s)]

/-! ## Claim theorems -/

/-- C1: the claim says `calculate_barcode` returns a 44-digit barcode
    whose positions 20–44 are a 25-character free field and a 54-character
    digitable line.  Evaluating the source at the spec's own scenario-3
    input shows the barcode has 35 digits (the free field is only
    `'9' + wallet(3) + nosso-número(12)` = 16 characters, with no zero
    fill to 25) and the digitable line has 45 characters. -/
theorem claim_C1_barcode_is_35_digits :
    (calculate_barcode "033" "9" ⟨2024, 12, 31⟩ 1000 "000000000001" "3421" "13000456"
      "101").1 = "03391994700001000009101000000000001" ∧
    (calculate_barcode "033" "9" ⟨2024, 12, 31⟩ 1000 "000000000001" "3421" "13000456"
      "101").1.length = 35 ∧
    (calculate_barcode "033" "9" ⟨2024, 12, 31⟩ 1000 "000000000001" "3421" "13000456"
      "101").2.length = 45 := by
  refine ⟨rfl, rfl, rfl⟩

/-- C2: the weight loop of `calcular_dv_bmp` computes exactly the
    closed-form weighted sum the spec describes (weights cycling 2..7
    right-to-left, remainder rules 0 ↦ '0', 1 ↦ 'P', r ↦ 11 − r), but
    the claimed example values are wrong: the algorithm yields "9" for
    ("109", 1) and "2" for ("1", 1). -/
theorem claim_C2_bank_b_nn_dv :
    (∀ carteira nn, calcular_dv_bmp carteira nn = bank_b_nn_dv_spec carteira nn) ∧
    calcular_dv_bmp "109" 1 = "9" ∧ calcular_dv_bmp "1" 1 = "2" :=
  ⟨calcular_dv_bmp_refines, by decide, by decide⟩

/-- C2 counterexample: `bank_b_nn_dv("109", 1)` is "9", not "0", and
    `bank_b_nn_dv("1", 1)` is "2", not "P". -/
theorem claim_C2_counterexample :
    calcular_dv_bmp "109" 1 = "9" ∧ calcular_dv_bmp "1" 1 = "2" ∧
    calcular_dv_bmp "109" 1 ≠ "0" ∧ calcular_dv_bmp "1" 1 ≠ "P" := by
  refine ⟨by decide, by decide, by decide, by decide⟩

/-- C3: each successful allocation returns the current counter and
    increments it by exactly one; allocation fails exactly when the
    pre-increment value exceeds the maximum, leaving the counter
    unchanged; the counter never moves past max+1; and the
    1000000/1000001 scenario plays out as claimed. -/
theorem claim_C3_allocate :
    (∀ c : Counter, c.current_nosso_numero ≤ c.max_nosso_numero →
        allocate c = (some c.current_nosso_numero,
          ⟨c.current_nosso_numero + 1, c.max_nosso_numero⟩)) ∧
    (∀ c : Counter, c.current_nosso_numero > c.max_nosso_numero →
        allocate c = (none, c)) ∧
    (∀ c : Counter, c.current_nosso_numero ≤ c.max_nosso_numero + 1 →
        (allocate c).2.current_nosso_numero ≤ c.max_nosso_numero + 1 ∧
        (allocate c).2.max_nosso_numero = c.max_nosso_numero) ∧
    allocate ⟨1000000, 1000001⟩ = (some 1000000, ⟨1000001, 1000001⟩) ∧
    allocate ⟨1000001, 1000001⟩ = (some 1000001, ⟨1000002, 1000001⟩) ∧
    allocate ⟨1000002, 1000001⟩ = (none, ⟨1000002, 1000001⟩) := by
  refine ⟨?_, ?_, ?_, by decide, by decide, by decide⟩
  · intro c h
    unfold allocate
    rw [if_neg (by omega)]
  · intro c h
    unfold allocate
    rw [if_pos (by omega)]
  · intro c h
    unfold allocate
    split
    · exact ⟨h, rfl⟩
    · next hle =>
        refine ⟨?_, rfl⟩
        show c.current_nosso_numero + 1 ≤ c.max_nosso_numero + 1
        omega

/-- C3 witness: the allocation theorem applied at concrete counters. -/
theorem claim_C3_allocate_witness :
    allocate ⟨3, 5⟩ = (some 3, ⟨4, 5⟩) ∧
    allocate ⟨7, 5⟩ = (none, ⟨7, 5⟩) ∧
    ((allocate ⟨6, 5⟩).2.current_nosso_numero ≤ 5 + 1 ∧
      (allocate ⟨6, 5⟩).2.max_nosso_numero = 5) :=
  ⟨claim_C3_allocate.1 ⟨3, 5⟩ (by decide),
   claim_C3_allocate.2.1 ⟨7, 5⟩ (by decide),
   claim_C3_allocate.2.2.1 ⟨6, 5⟩ (by decide)⟩

/-- C4: amounts read from fiscal XML are parsed to the decimal BRL
    value and are NOT converted to integer cents at parse time: the
    scenario-2 NFe fixture parses to amount 1234.56 (with the claimed
    issue date and document number); the truncation to a 10-digit cents
    string only happens later, in the CNAB/barcode numeric formatting. -/
theorem claim_C4_amount_stays_brl :
    (parse_nfe nfeFixture ⟨2025, 6, 1⟩).map ParsedDoc.amount =
      some (mkRat 123456 100) ∧
    (parse_nfe nfeFixture ⟨2025, 6, 1⟩).map ParsedDoc.issue_date =
      some ⟨2024, 1, 15⟩ ∧
    (parse_nfe nfeFixture ⟨2025, 6, 1⟩).map ParsedDoc.doc_number =
      some (some "789") ∧
    mkRat 123456 100 = (123456 : ℚ) / 100 ∧
    format_num_dec (mkRat 123456 100) 10 2 = "0000123456" := by
  refine ⟨rfl, rfl, rfl, by with_unfolding_all rfl, rfl⟩

/-- C4 counterexample: the fixture's parsed amount is 1234.56 (BRL),
    not the claimed 123456 integer cents. -/
theorem claim_C4_counterexample :
    (parse_nfe nfeFixture ⟨2025, 6, 1⟩).map ParsedDoc.amount =
      some (mkRat 123456 100) ∧
    (parse_nfe nfeFixture ⟨2025, 6, 1⟩).map ParsedDoc.amount ≠
      some (123456 : ℚ) := by
  have h1 : (parse_nfe nfeFixture ⟨2025, 6, 1⟩).map ParsedDoc.amount =
      some (mkRat 123456 100) := rfl
  have hq : mkRat 123456 100 = (123456 : ℚ) / 100 := by with_unfolding_all rfl
  refine ⟨h1, ?_⟩
  rw [h1, hq]
  intro hc
  have h2 := Option.some.inj hc
  norm_num at h2

/-- C5: `format_num` zero-pads to at least the requested width but
    never truncates and never raises: the output length is exactly
    `max (representation length) n`, so an over-wide value flows into
    the record instead of aborting. -/
theorem claim_C5_format_num_never_truncates :
    (∀ (m : ℤ) (n : Nat), (format_num_int m n).length = max (toString m).length n) ∧
    (∀ (q : ℚ) (n d : Nat),
        (format_num_dec q n d).length = max (toString (pyIntScaled q (10 ^ d))).length n) ∧
    (∀ (s : String) (n : Nat),
        (format_num_str s n).length =
          max (toString (if s.isEmpty then 0 else strToNat s)).length n) :=
  ⟨fun m n => zfill_length (toString m) n,
   fun q n d => zfill_length (toString (pyIntScaled q (10 ^ d))) n,
   fun s n => zfill_length (toString (if s.isEmpty then 0 else strToNat s)) n⟩

/-- C5 counterexample: `format_num(12345, 3)` returns "12345", a string
    of length 5 > 3, with no error. -/
theorem claim_C5_counterexample :
    format_num_int 12345 3 = "12345" ∧ (format_num_int 12345 3).length = 5 ∧
    ¬ (format_num_int 12345 3).length ≤ 3 := by
  refine ⟨by decide, by decide, by decide⟩

/-- C6: the three XML failure kinds are NOT distinguished: a
    non-parseable input, an unrecognized root, and an NFe missing its
    required destinatary all produce the same `(None, None)` outcome. -/
theorem claim_C6_failure_collapse :
    (∀ today, parse_file none today = none) ∧
    (∀ (x : Xml) today, containsSub "nfe".data (pyLower x.tag).data = false →
        containsSub "cte".data (pyLower x.tag).data = false →
        parse_file (some x) today = none) ∧
    (∀ (x : Xml) today, containsSub "nfe".data (pyLower x.tag).data = true →
        findDesc1 x "dest" = none →
        parse_file (some x) today = none) := by
  refine ⟨fun _ => rfl, ?_, ?_⟩
  · intro x today h1 h2
    unfold parse_file
    simp [h1, h2]
  · intro x today h1 h2
    unfold parse_file
    simp only [h1, if_pos]
    unfold parse_nfe
    rw [h2]
    rfl

/-- C6 witness: the collapse theorem applied to the concrete
    unknown-root and missing-destinatary documents. -/
theorem claim_C6_failure_collapse_witness :
    parse_file (some unknownRootDoc) ⟨2024, 1, 1⟩ = none ∧
    parse_file (some nfeMissingDest) ⟨2024, 1, 1⟩ = none :=
  ⟨claim_C6_failure_collapse.2.1 unknownRootDoc ⟨2024, 1, 1⟩ rfl rfl,
   claim_C6_failure_collapse.2.2 nfeMissingDest ⟨2024, 1, 1⟩ rfl rfl⟩

/-- C6 counterexample: the three failure causes evaluate to literally
    the same result, so no MALFORMED / UNKNOWN_KIND / MISSING_REQUIRED
    distinction exists. -/
theorem claim_C6_counterexample :
    parse_file none ⟨2025, 6, 1⟩ = none ∧
    parse_file (some unknownRootDoc) ⟨2025, 6, 1⟩ = none ∧
    parse_file (some nfeMissingDest) ⟨2025, 6, 1⟩ = none ∧
    parse_file (some unknownRootDoc) ⟨2025, 6, 1⟩ = parse_file none ⟨2025, 6, 1⟩ ∧
    parse_file (some nfeMissingDest) ⟨2025, 6, 1⟩ =
      parse_file (some unknownRootDoc) ⟨2025, 6, 1⟩ := by
  refine ⟨rfl, rfl, rfl, rfl, rfl⟩

set_option maxRecDepth 8000 in
/-- C7: the claim says every line of a one-boleto BANK_A file has
    exactly 240 characters.  Evaluating the emitter on a concrete
    one-boleto batch: the file does have 6 lines, starts with
    "03300000", and its trailer counter is 000006 = the line count, but
    the Segment-P line has 249 characters (the interest code and date
    fields are emitted twice: unconditionally at positions 118–126 and
    again inside the interest branch). -/
theorem claim_C7_segment_p_is_249 :
    (generate_santander_240_lines [sampleBoleto] sampleCedente ⟨2025, 1, 1⟩).map
        (List.map String.length) = some [240, 240, 249, 240, 240, 240] ∧
    (generate_santander_240_lines [sampleBoleto] sampleCedente ⟨2025, 1, 1⟩).map
        List.length = some 6 ∧
    (generate_santander_240_lines [sampleBoleto] sampleCedente ⟨2025, 1, 1⟩).map
        (fun ls => strTake (ls.headD "") 8) = some "03300000" ∧
    (generate_santander_240_lines [sampleBoleto] sampleCedente ⟨2025, 1, 1⟩).map
        (fun ls => strSlice (ls.getLastD "") 23 29) = some "000006" := by
  refine ⟨rfl, rfl, rfl, rfl⟩

/-- C8: the status set the code maintains is
    {pending, printed, approved, registered, cancelled}: creation
    writes `printed`, the column default is `pending`, and every
    transition (approve, register, cancel) stays inside the set. -/
theorem claim_C8_status_closure :
    generatedBoletoStatus = "printed" ∧
    generatedBoletoStatus ∈ codeStatuses ∧
    boletoStatusDefault ∈ codeStatuses ∧
    (∀ s ∈ codeStatuses, approveBoleto s ∈ codeStatuses) ∧
    (∀ s ∈ codeStatuses, registerBoleto s ∈ codeStatuses) ∧
    (∀ s ∈ codeStatuses, ∀ t, cancelBoleto s = some t → t ∈ codeStatuses) := by
  refine ⟨by decide, by decide, by decide, by decide, by decide, ?_⟩
  intro s _ t ht
  unfold cancelBoleto at ht
  split at ht
  · exact absurd ht (by simp)
  · cases ht
    decide

/-- C8 witness: the closure theorem applied at concrete statuses,
    including cancellation of a printed boleto. -/
theorem claim_C8_status_closure_witness :
    approveBoleto "printed" ∈ codeStatuses ∧
    registerBoleto "approved" ∈ codeStatuses ∧
    "cancelled" ∈ codeStatuses :=
  ⟨claim_C8_status_closure.2.2.2.1 "printed" (by decide),
   claim_C8_status_closure.2.2.2.2.1 "approved" (by decide),
   claim_C8_status_closure.2.2.2.2.2 "printed" (by decide) "cancelled" (by decide)⟩

/-- C8 counterexample: the status assigned at creation is "printed",
    which is not one of the four statuses the claim allows. -/
theorem claim_C8_counterexample :
    generatedBoletoStatus = "printed" ∧ generatedBoletoStatus ∉ specStatuses := by
  refine ⟨by decide, by decide⟩

/-- C9: CPF and CNPJ formatting is idempotent, and formatting a string
    equals formatting its digits-only strip. -/
theorem claim_C9_format_idempotent : ∀ s : String,
    format_cpf (format_cpf s) = format_cpf s ∧
    format_cnpj (format_cnpj s) = format_cnpj s ∧
    format_cpf (stripNonDigits s) = format_cpf s ∧
    format_cnpj (stripNonDigits s) = format_cnpj s := by
  intro s
  refine ⟨?_, ?_, ?_, ?_⟩
  · show format_cpf_digits (stripNonDigits (format_cpf s)).data = format_cpf s
    rw [strip_format_cpf]
    rfl
  · show format_cnpj_digits (stripNonDigits (format_cnpj s)).data = format_cnpj s
    rw [strip_format_cnpj]
    rfl
  · show format_cpf_digits (stripNonDigits (stripNonDigits s)).data = format_cpf s
    rw [stripNonDigits_idem]
    rfl
  · show format_cnpj_digits (stripNonDigits (stripNonDigits s)).data = format_cnpj s
    rw [stripNonDigits_idem]
    rfl

/-- C10: `generate_pdf` strips every non-digit from the stored barcode
    and, when fewer than 44 digits remain, right-pads with '0' to
    exactly 44, so the printed bars encode the zero-extended value, not
    the stored one. -/
theorem claim_C10_clean_barcode (s : String)
    (h : (stripNonDigits s).length < 44) :
    clean_barcode s =
      String.mk ((stripNonDigits s).data ++
        List.replicate (44 - (stripNonDigits s).length) '0') ∧
    (clean_barcode s).length = 44 ∧
    clean_barcode s ≠ stripNonDigits s := by
  have hdef : clean_barcode s =
      String.mk ((stripNonDigits s).data ++
        List.replicate (44 - (stripNonDigits s).length) '0') := by
    unfold clean_barcode
    rw [if_pos h]
    rfl
  have hlen : (clean_barcode s).length = 44 := by
    rw [hdef]
    show ((stripNonDigits s).data ++
      List.replicate (44 - (stripNonDigits s).length) '0').length = 44
    rw [List.length_append, List.length_replicate]
    have : (stripNonDigits s).data.length = (stripNonDigits s).length := rfl
    omega
  refine ⟨hdef, hlen, ?_⟩
  intro heq
  have := congrArg String.length heq
  rw [hlen] at this
  omega

/-- C10 witness: a stored barcode of 4 digits is zero-extended to 44. -/
theorem claim_C10_clean_barcode_witness :
    (stripNonDigits "033A9").length < 44 ∧
    (clean_barcode "033A9" =
      String.mk ((stripNonDigits "033A9").data ++
        List.replicate (44 - (stripNonDigits "033A9").length) '0') ∧
    (clean_barcode "033A9").length = 44 ∧
    clean_barcode "033A9" ≠ stripNonDigits "033A9") :=
  ⟨by decide, claim_C10_clean_barcode "033A9" (by decide)⟩

end Julius
